import Mathlib

/-!
Shallow embedding of the serverless CSV-ingestion pipeline:
the batch Lambda (reads CSV text, validates, enriches and persists
each row to the keyed store, then publishes a completion notification)
and the REST API Lambda (validates one JSON payload, enriches and
persists it, publishes a notification, returns an HTTP-shaped response).

External collaborators (the put of the store, the publish of the notifier, the
uuid generator, the wall clock and the JSON parser of the platform) are
injected as parameters; booleans say whether a given external call
succeeds or throws, mirroring the try/catch structure of the handlers.
-/

namespace Pipeline

/-! ## JavaScript primitive semantics used by the handlers -/

/-- Truthiness-based fallback of the JS expression input, applied to an
optional string: an absent (undefined) or empty string is falsy, so the
default is taken; any other string passes through. -/
def jsStrOr (v : Option String) (d : String) : String :=
  match v with
  | none => d
  | some s => if s = "" then d else s

/-- A string field is usable (truthy) when present and non-empty; this
is the test the handlers perform with the JS negation operator. -/
def usable (v : Option String) : Bool :=
  match v with
  | none => false
  | some s => !(s == "")

/-- Characters of a string with the whitespace removed from both ends. -/
def trimChars (cs : List Char) : List Char :=
  ((cs.dropWhile Char.isWhitespace).reverse.dropWhile Char.isWhitespace).reverse

/-- The JS string trim method: whitespace stripped from both ends. -/
def jsTrim (s : String) : String := ⟨trimChars s.data⟩

/-- Splitting a character list at every occurrence of the separator;
the result always has one more piece than there are separators, so the
empty input gives one empty piece, as the JS split method does. -/
def splitChar (sep : Char) : List Char → List (List Char)
  | [] => [[]]
  | c :: cs =>
    let r := splitChar sep cs
    if c = sep then [] :: r
    else (c :: r.headD []) :: r.tail

/-- The JS string split method with a one-character separator. -/
def jsSplit (sep : Char) (s : String) : List String :=
  (splitChar sep s.data).map (fun cs => ⟨cs⟩)

/-- Value of a list of decimal digit characters. -/
def digitsVal (ds : List Char) : Nat :=
  ds.foldl (fun a c => a * 10 + (c.toNat - 48)) 0

/-- Value of the fractional digits after the decimal point. -/
def fracVal (ds : List Char) : ℚ :=
  (digitsVal ds : ℚ) / ((10 : ℚ) ^ ds.length)

/-- Strip one optional sign character, reporting whether it was a minus. -/
def signSplit (cs : List Char) : Bool × List Char :=
  match cs with
  | '-' :: r => (true, r)
  | '+' :: r => (false, r)
  | r => (false, r)

/-- Model of the JS builtin parseFloat on the decimal literals the
pipeline feeds it: leading whitespace is skipped, then an optional sign
and the longest prefix of digits with an optional fraction part is
read; none models the NaN result when no digit is found. (Exponent
notation and Infinity, which the data never uses, are outside the
model.) -/
def jsParseFloat (s : String) : Option ℚ :=
  let cs := s.data.dropWhile Char.isWhitespace
  let p := signSplit cs
  let ints := p.2.takeWhile Char.isDigit
  let rest := p.2.dropWhile Char.isDigit
  let fracs := match rest with
    | '.' :: r => r.takeWhile Char.isDigit
    | _ => []
  if ints = [] ∧ fracs = [] then none
  else
    let mag : ℚ := (digitsVal ints : ℚ) + fracVal fracs
    some (if p.1 then -mag else mag)

/-- Hexadecimal digit test, for the 0x prefix parseInt recognizes. -/
def isHexDigit (c : Char) : Bool :=
  c.isDigit || ('a' ≤ c && c ≤ 'f') || ('A' ≤ c && c ≤ 'F')

/-- Value of a list of hexadecimal digit characters. -/
def hexVal (ds : List Char) : Nat :=
  ds.foldl
    (fun a c =>
      a * 16 +
        (if c.isDigit then c.toNat - 48
         else if 'a' ≤ c then c.toNat - 87
         else c.toNat - 55))
    0

/-- Decimal branch of parseInt: longest digit prefix, none for NaN. -/
def decIntOf (neg : Bool) (cs : List Char) : Option Int :=
  let ds := cs.takeWhile Char.isDigit
  if ds = [] then none
  else some (if neg then -(digitsVal ds : Int) else (digitsVal ds : Int))

/-- Model of the JS builtin parseInt with no radix argument: leading
whitespace skipped, optional sign, then either a 0x/0X hexadecimal
literal or the longest decimal digit prefix; none models NaN. -/
def jsParseInt (s : String) : Option Int :=
  let cs := s.data.dropWhile Char.isWhitespace
  let p := signSplit cs
  match p.2 with
  | '0' :: x :: r =>
    if x = 'x' ∨ x = 'X' then
      let hs := r.takeWhile isHexDigit
      if hs = [] then none
      else some (if p.1 then -(hexVal hs : Int) else (hexVal hs : Int))
    else decIntOf p.1 p.2
  | _ => decIntOf p.1 p.2

/-- parseFloat applied to a possibly-undefined field: an undefined
argument stringifies and yields NaN. -/
def jsParseFloatOpt (v : Option String) : Option ℚ :=
  v.bind jsParseFloat

/-- parseInt applied to a possibly-undefined field. -/
def jsParseIntOpt (v : Option String) : Option Int :=
  v.bind jsParseInt

/-- The JS fallback x or-else d for a parsed number: NaN (none) and 0
are falsy, so the default is substituted for them. -/
def jsNumOr (v : Option ℚ) (d : ℚ) : ℚ :=
  match v with
  | none => d
  | some q => if q = 0 then d else q

/-- The JS fallback for a parsed integer: NaN (none) and 0 are falsy. -/
def jsIntOr (v : Option Int) (d : Int) : Int :=
  match v with
  | none => d
  | some n => if n = 0 then d else n

/-! ## The batch handler (dataProcessor): CSV decode, validate, enrich,
persist, notify -/

/-- The enriched record the batch handler hands to the put
operation of the store, mirroring the object literal built per row. -/
structure EnrichedRecord where
  id : String
  timestamp : Nat
  nome : String
  categoria : String
  preco : ℚ
  estoque : Int
  source_file : String
  processed_at : String
  processor_version : String
deriving DecidableEq, Repr

/-- What happened to one non-blank data row. -/
inductive RowOutcome where
  | rejected_missing_identity
  | persisted (r : EnrichedRecord)
  | put_failed (r : EnrichedRecord)
deriving DecidableEq, Repr

/-- Mutable state of the row loop: the two counters and, for the
specification, the sequence of store calls and per-row outcomes
(indexed by the 0-based position of the line in the split file). -/
structure BatchState where
  processedCount : Nat
  errorCount : Nat
  putCalls : List (Nat × EnrichedRecord)
  outcomes : List (Nat × RowOutcome)
deriving DecidableEq, Repr

def initialBatchState : BatchState := ⟨0, 0, [], []⟩

/-- Building the row object: record[header] := values[index] for each
header position in order, so the last occurrence of a header wins and a
missing value stores undefined (none). Looking up a field then returns
the value at the last position whose header equals the field. -/
def jsObjGet (headers values : List String) (field : String) : Option String :=
  (List.range headers.length).foldl
    (fun acc j => if headers.get? j = some field then values.get? j else acc)
    none

/-- Enrichment of one validated CSV row: the object literal the batch
handler builds before calling put. -/
def enrichCsvRow (headers values : List String) (key : String) (now : Nat)
    (nowIso : String) : EnrichedRecord :=
  { id := (jsObjGet headers values "id").getD ""
    timestamp := now
    nome := (jsObjGet headers values "nome").getD ""
    categoria := jsStrOr (jsObjGet headers values "categoria") "Sem categoria"
    preco := jsNumOr (jsParseFloatOpt (jsObjGet headers values "preco")) 0
    estoque := jsIntOr (jsParseIntOpt (jsObjGet headers values "estoque")) 0
    source_file := key
    processed_at := nowIso
    processor_version := "1.0.0" }

/-- One iteration of the row loop of the batch handler: trim the line,
skip it when blank; otherwise split on commas, build the row object,
reject it when id or nome is not usable, else enrich and call put,
counting a thrown put as a row failure. -/
def processLine (headers : List String) (key : String) (now : Nat) (nowIso : String)
    (putOk : Nat → Bool) (st : BatchState) (i : Nat) (rawLine : String) : BatchState :=
  let line := jsTrim rawLine
  if line = "" then st
  else
    let values := (jsSplit ',' line).map jsTrim
    let get := fun f => jsObjGet headers values f
    if usable (get "id") && usable (get "nome") then
      let r : EnrichedRecord := enrichCsvRow headers values key now nowIso
      let st1 : BatchState := { st with putCalls := st.putCalls ++ [(i, r)] }
      if putOk i then
        { st1 with
            processedCount := st1.processedCount + 1
            outcomes := st1.outcomes ++ [(i, .persisted r)] }
      else
        { st1 with
            errorCount := st1.errorCount + 1
            outcomes := st1.outcomes ++ [(i, .put_failed r)] }
    else
      { st with
          errorCount := st.errorCount + 1
          outcomes := st.outcomes ++ [(i, .rejected_missing_identity)] }

/-- The for-loop over lines 1 .. length-1 of the split file. -/
def processLines (headers : List String) (key : String) (now : Nat) (nowIso : String)
    (putOk : Nat → Bool) : Nat → List String → BatchState → BatchState
  | _, [], st => st
  | i, l :: ls, st =>
    processLines headers key now nowIso putOk (i + 1) ls
      (processLine headers key now nowIso putOk st i l)

/-- The row statistics reported in the 200 response body (and in the
completion notification). -/
structure BatchReport where
  records_processed : Nat
  records_failed : Nat
  total_records : Nat
deriving DecidableEq, Repr

/-- Result of one batch handler invocation: the HTTP-shaped status, the
final loop state, and the report carried by the success body (absent on
the 500 path, whose body only echoes the error). -/
structure BatchResult where
  statusCode : Nat
  finalState : BatchState
  report : Option BatchReport
deriving DecidableEq, Repr

/-- Line decomposition of the batch file: the whole text is trimmed
and then split on line breaks. -/
def batchLines (csvContent : String) : List String :=
  jsSplit '\n' (jsTrim csvContent)

/-- Header list of the batch file: the first line split on commas,
every header trimmed. -/
def batchHeaders (csvContent : String) : List String :=
  (jsSplit ',' ((batchLines csvContent).headD "")).map jsTrim

/-- Final loop state of one batch run: the row loop over the lines
after the header, started at line index 1 with zeroed counters. -/
def batchFinalState (csvContent key : String) (now : Nat) (nowIso : String)
    (putOk : Nat → Bool) : BatchState :=
  processLines (batchHeaders csvContent) key now nowIso putOk 1
    ((batchLines csvContent).drop 1) initialBatchState

/-- The batch Lambda handler, from the point where the CSV text has
been read from the object source. It trims the whole text, splits it on
line breaks, takes the first line as the header list, runs the row loop
over the remaining lines, then (when a topic is configured) awaits the
completion publish inside the same try block: a publish failure is
caught only by the outermost catch, which attempts a failure
notification (whose own failure, failNotifyOk false, is swallowed) and
returns a 500 body without the row statistics. -/
def dataProcessorHandler (csvContent key : String) (now : Nat) (nowIso : String)
    (putOk : Nat → Bool) (hasTopic publishOk failNotifyOk : Bool) : BatchResult :=
  let st := batchFinalState csvContent key now nowIso putOk
  if hasTopic && !publishOk then
    { statusCode := 500, finalState := st, report := none }
  else
    { statusCode := 200, finalState := st,
      report := some ⟨st.processedCount, st.errorCount,
        (batchLines csvContent).length - 1⟩ }

/-! ## The API handler (createRecord): one JSON payload, validate,
enrich, persist, notify, respond -/

/-- A JavaScript value as the API handler can see it: the event body
before parsing (a string, an already-structured value, null, or absent)
and the structured value after parsing. -/
inductive JsValue where
  | null
  | undefined
  | str (s : String)
  | num (q : ℚ)
  | jbool (b : Bool)
  | obj (fields : List (String × JsValue))
  | arr (elems : List JsValue)

/-- Property lookup in the field list of an object: later assignments of the
same key win, an absent key reads as undefined. -/
def objGetLast (fields : List (String × JsValue)) (k : String) : Option JsValue :=
  fields.foldl (fun acc p => if p.1 = k then some p.2 else acc) none

/-- Property access on a value already known not to be null or
undefined (those throw a TypeError, handled separately): objects look
the key up, primitives and arrays read undefined for the keys this
handler uses. -/
def propOf (v : JsValue) (k : String) : JsValue :=
  match v with
  | .obj fs => (objGetLast fs k).getD .undefined
  | _ => .undefined

/-- JS truthiness of a value. -/
def truthy (v : JsValue) : Bool :=
  match v with
  | .null => false
  | .undefined => false
  | .str s => !(s == "")
  | .num q => decide (q ≠ 0)
  | .jbool b => b
  | .obj _ => true
  | .arr _ => true

/-- parseFloat applied to a JS value: a string is parsed, a number
stringifies and parses back to itself, everything else the handler
feeds it stringifies to a non-numeric word and yields NaN. -/
def jsParseFloatV (v : JsValue) : Option ℚ :=
  match v with
  | .str s => jsParseFloat s
  | .num q => some q
  | _ => none

/-- Truncation toward zero, as converting a number through its decimal
string and parseInt does. -/
def ratTrunc (q : ℚ) : Int :=
  if 0 ≤ q then ⌊q⌋ else -⌊-q⌋

/-- parseInt applied to a JS value. -/
def jsParseIntV (v : JsValue) : Option Int :=
  match v with
  | .str s => jsParseInt s
  | .num q => some (ratTrunc q)
  | _ => none

/-- The item the API handler hands to the put operation of the store. The id
and the pass-through fields keep whatever JS value the body carried. -/
structure ApiItem where
  id : JsValue
  timestamp : Nat
  nome : JsValue
  categoria : JsValue
  preco : ℚ
  estoque : Int
  source : String
  created_at : String
  created_by : String

/-- Enrichment of one accepted API payload: the item literal the
handler builds before calling put. The id is the own id of the body when
truthy, else the freshly generated uuid. -/
def apiItemOf (body : JsValue) (freshId : String) (now : Nat) (nowIso : String)
    (sourceIp : Option String) : ApiItem :=
  { id := if truthy (propOf body "id") then propOf body "id" else .str freshId
    timestamp := now
    nome := propOf body "nome"
    categoria := if truthy (propOf body "categoria") then propOf body "categoria"
                 else .str "API"
    preco := jsNumOr (jsParseFloatV (propOf body "preco")) 0
    estoque := jsIntOr (jsParseIntV (propOf body "estoque")) 0
    source := "API"
    created_at := nowIso
    created_by := jsStrOr sourceIp "unknown" }

/-- The HTTP-shaped event the API handler receives: the method, the raw
body (undef when the request carried none) and the caller ip hint. -/
structure ApiEvent where
  httpMethod : String
  body : JsValue
  sourceIp : Option String

/-- The HTTP-shaped response: status code, the error discriminator of
an error body, the id carried by a 201 body, and the list of put calls
the invocation made (for the specification). -/
structure ApiResponse where
  statusCode : Nat
  errorKind : Option String
  createdId : Option JsValue
  putCalls : List ApiItem

/-- The createRecord Lambda handler. parse models the platform JSON
parser (none when JSON.parse throws); freshId the uuid the generator
would return; putOk and publishOk whether the store put and the
notification publish succeed. An OPTIONS request short-circuits to 200;
a non-POST method to 405; a string body that fails to parse to 400
Invalid JSON; a null or undefined body throws on the nome read and
lands in the outermost catch as a 500; a falsy nome yields 400
Validation Error; then the enriched item is put (a throw lands in the
catch as 500), the notification published inside the same try (a throw
likewise lands in the catch as 500), and otherwise 201 is returned with
the id of the item. -/
def createRecordHandler (parse : String → Option JsValue) (freshId : String)
    (now : Nat) (nowIso : String) (putOk : Bool) (hasTopic publishOk : Bool)
    (event : ApiEvent) : ApiResponse :=
  if event.httpMethod = "OPTIONS" then
    { statusCode := 200, errorKind := none, createdId := none, putCalls := [] }
  else if event.httpMethod ≠ "POST" then
    { statusCode := 405, errorKind := some "Method Not Allowed",
      createdId := none, putCalls := [] }
  else
    let parsed : Option JsValue :=
      match event.body with
      | .str s => parse s
      | v => some v
    match parsed with
    | none =>
      { statusCode := 400, errorKind := some "Invalid JSON",
        createdId := none, putCalls := [] }
    | some .null =>
      { statusCode := 500, errorKind := some "Internal Server Error",
        createdId := none, putCalls := [] }
    | some .undefined =>
      { statusCode := 500, errorKind := some "Internal Server Error",
        createdId := none, putCalls := [] }
    | some body =>
      if truthy (propOf body "nome") then
        let item : ApiItem := apiItemOf body freshId now nowIso event.sourceIp
        if !putOk then
          { statusCode := 500, errorKind := some "Internal Server Error",
            createdId := none, putCalls := [item] }
        else if hasTopic && !publishOk then
          { statusCode := 500, errorKind := some "Internal Server Error",
            createdId := none, putCalls := [item] }
        else
          { statusCode := 201, errorKind := none,
            createdId := some item.id, putCalls := [item] }
      else
        { statusCode := 400, errorKind := some "Validation Error",
          createdId := none, putCalls := [] }

/-! ## Lemmas about the row loop -/

/-- A line that is blank after trimming leaves the loop state untouched. -/
theorem processLine_of_blank (headers : List String) (key : String) (now : Nat)
    (nowIso : String) (putOk : Nat → Bool) (st : BatchState) (i : Nat)
    (rawLine : String) (h : jsTrim rawLine = "") :
    processLine headers key now nowIso putOk st i rawLine = st := by
  simp [processLine, h]

/-- A non-blank line is attempted exactly once: it adds one to the sum
of the two counters and records exactly one outcome. -/
theorem processLine_attempt (headers : List String) (key : String) (now : Nat)
    (nowIso : String) (putOk : Nat → Bool) (st : BatchState) (i : Nat)
    (rawLine : String) (h : ¬ jsTrim rawLine = "") :
    (processLine headers key now nowIso putOk st i rawLine).processedCount +
        (processLine headers key now nowIso putOk st i rawLine).errorCount =
      st.processedCount + st.errorCount + 1 ∧
    (processLine headers key now nowIso putOk st i rawLine).outcomes.length =
      st.outcomes.length + 1 := by
  simp only [processLine, if_neg h]
  split
  · split <;> simp <;> omega
  · simp <;> omega

/-- Over a list of non-blank lines, the loop adds the length of the
list to the attempt count and to the number of recorded outcomes. -/
theorem processLines_attempts (headers : List String) (key : String) (now : Nat)
    (nowIso : String) (putOk : Nat → Bool) (ls : List String) :
    ∀ (i : Nat) (st : BatchState), (∀ l ∈ ls, ¬ jsTrim l = "") →
      (processLines headers key now nowIso putOk i ls st).processedCount +
          (processLines headers key now nowIso putOk i ls st).errorCount =
        st.processedCount + st.errorCount + ls.length ∧
      (processLines headers key now nowIso putOk i ls st).outcomes.length =
        st.outcomes.length + ls.length := by
  induction ls with
  | nil => intro i st _; simp [processLines]
  | cons l ls ih =>
    intro i st h
    have hl : ¬ jsTrim l = "" := h l (List.mem_cons_self l ls)
    have ha := processLine_attempt headers key now nowIso putOk st i l hl
    have hrest := ih (i + 1) (processLine headers key now nowIso putOk st i l)
      (fun x hx => h x (List.mem_cons_of_mem _ hx))
    simp only [processLines, List.length_cons]
    omega

/-! ## Claim theorems -/

/-- C2 (amended): a blank line (no content after trimming) is skipped
silently — it changes nothing in the loop state, so it increments
neither the processed count nor the failure count and records no
outcome; however the reported total_records is the number of lines
after the first in the trimmed file, which counts interior blank
lines. -/
theorem claim_C2 :
    (∀ (headers : List String) (key : String) (now : Nat) (nowIso : String)
        (putOk : Nat → Bool) (st : BatchState) (i : Nat) (rawLine : String),
      jsTrim rawLine = "" →
      processLine headers key now nowIso putOk st i rawLine = st) ∧
    (∀ (csv key nowIso : String) (now : Nat) (putOk : Nat → Bool) (failN : Bool),
      ((dataProcessorHandler csv key now nowIso putOk false true failN).report.map
          BatchReport.total_records) =
        some ((batchLines csv).length - 1)) :=
  ⟨fun headers key now nowIso putOk st i rawLine h =>
    processLine_of_blank headers key now nowIso putOk st i rawLine h,
   fun csv key nowIso now putOk failN => by simp [dataProcessorHandler]⟩

/-- C2 witness: a concrete all-whitespace line leaves a concrete state
unchanged, and a concrete two-line file reports one data row. -/
theorem claim_C2_witness :
    (processLine ["id"] "k" 0 "t" (fun _ => true) initialBatchState 1 "   " =
      initialBatchState) ∧
    ((dataProcessorHandler "id,nome\na,b" "k" 0 "t" (fun _ => true) false true
        true).report.map BatchReport.total_records) =
      some ((batchLines "id,nome\na,b").length - 1) ∧
    (batchLines "id,nome\na,b").length - 1 = 1 :=
  ⟨claim_C2.1 ["id"] "k" 0 "t" (fun _ => true) initialBatchState 1 "   " (by decide),
   claim_C2.2 "id,nome\na,b" "k" "t" 0 (fun _ => true) true,
   by decide⟩

/-- C2 counterexample: in a file whose third line is blank, only two
rows are ever attempted (two recorded outcomes, two processed, no
failures), yet the reported total_records is 3 — the blank line does
count toward the reported row total, contrary to the claim. -/
theorem claim_C2_counterexample :
    (dataProcessorHandler "id,nome\na,b\n\nc,d" "f.csv" 0 "t" (fun _ => true)
        false true true).report =
      some { records_processed := 2, records_failed := 0, total_records := 3 } ∧
    (dataProcessorHandler "id,nome\na,b\n\nc,d" "f.csv" 0 "t" (fun _ => true)
        false true true).finalState.outcomes.length = 2 := by
  decide

/-- C4: for well-formed CSV text with a header line and N data rows,
none of them blank, the batch handler (with the notification succeeding
or unconfigured) attempts exactly N rows — it records N outcomes — and
the processed count plus the failed count equals N, which is also the
total_records figure of the 200 report. -/
theorem claim_C4 (csv key nowIso : String) (now N : Nat) (putOk : Nat → Bool)
    (hasTopic publishOk failNotifyOk : Bool)
    (hlen : (batchLines csv).length = N + 1)
    (hblank : ∀ l ∈ (batchLines csv).drop 1, ¬ jsTrim l = "")
    (hnotify : hasTopic = true → publishOk = true) :
    (dataProcessorHandler csv key now nowIso putOk hasTopic publishOk
        failNotifyOk).statusCode = 200 ∧
    (dataProcessorHandler csv key now nowIso putOk hasTopic publishOk
        failNotifyOk).finalState.outcomes.length = N ∧
    (dataProcessorHandler csv key now nowIso putOk hasTopic publishOk
        failNotifyOk).finalState.processedCount +
      (dataProcessorHandler csv key now nowIso putOk hasTopic publishOk
        failNotifyOk).finalState.errorCount = N ∧
    (dataProcessorHandler csv key now nowIso putOk hasTopic publishOk
        failNotifyOk).report =
      some ⟨(dataProcessorHandler csv key now nowIso putOk hasTopic publishOk
              failNotifyOk).finalState.processedCount,
            (dataProcessorHandler csv key now nowIso putOk hasTopic publishOk
              failNotifyOk).finalState.errorCount, N⟩ := by
  have hcond : (hasTopic && !publishOk) = false := by
    cases hasTopic
    · rfl
    · simp [hnotify rfl]
  have hatt := processLines_attempts (batchHeaders csv) key now nowIso putOk
    ((batchLines csv).drop 1) 1 initialBatchState hblank
  have hstate : (batchFinalState csv key now nowIso putOk).processedCount +
        (batchFinalState csv key now nowIso putOk).errorCount =
        ((batchLines csv).drop 1).length ∧
      (batchFinalState csv key now nowIso putOk).outcomes.length =
        ((batchLines csv).drop 1).length := by
    simpa [batchFinalState, initialBatchState] using hatt
  have hdrop : ((batchLines csv).drop 1).length = N := by
    rw [List.length_drop, hlen]; omega
  have htot : (batchLines csv).length - 1 = N := by omega
  simp only [dataProcessorHandler, hcond, Bool.false_eq_true, if_false, htot]
  exact ⟨by simp, by omega, by omega, by simp⟩

/-- C4 witness: a two-row file with no blanks reports 2 attempted rows
and total_records 2. -/
theorem claim_C4_witness :
    (dataProcessorHandler "id,nome\na,b\nc,d" "k" 0 "t" (fun _ => true) false true
        true).statusCode = 200 ∧
    (dataProcessorHandler "id,nome\na,b\nc,d" "k" 0 "t" (fun _ => true) false true
        true).finalState.outcomes.length = 2 ∧
    (dataProcessorHandler "id,nome\na,b\nc,d" "k" 0 "t" (fun _ => true) false true
        true).finalState.processedCount +
      (dataProcessorHandler "id,nome\na,b\nc,d" "k" 0 "t" (fun _ => true) false true
        true).finalState.errorCount = 2 ∧
    (dataProcessorHandler "id,nome\na,b\nc,d" "k" 0 "t" (fun _ => true) false true
        true).report =
      some ⟨(dataProcessorHandler "id,nome\na,b\nc,d" "k" 0 "t" (fun _ => true)
              false true true).finalState.processedCount,
            (dataProcessorHandler "id,nome\na,b\nc,d" "k" 0 "t" (fun _ => true)
              false true true).finalState.errorCount, 2⟩ :=
  claim_C4 "id,nome\na,b\nc,d" "k" "t" 0 2 (fun _ => true) false true true
    (by decide) (by decide) (by simp)

/-- C5: a non-blank data row in which both the id field and the nome
field are missing or empty is rejected as missing identity: the failure
counter goes up by one, the rejection outcome is recorded, no store
call is added for the row, the processed count is untouched, and the
loop goes on to the next row with the updated state. -/
theorem claim_C5 (headers : List String) (key nowIso rawLine : String)
    (now i : Nat) (putOk : Nat → Bool) (st : BatchState)
    (hl : ¬ jsTrim rawLine = "")
    (hid : usable (jsObjGet headers ((jsSplit ',' (jsTrim rawLine)).map jsTrim)
      "id") = false)
    (hnome : usable (jsObjGet headers ((jsSplit ',' (jsTrim rawLine)).map jsTrim)
      "nome") = false) :
    processLine headers key now nowIso putOk st i rawLine =
      { st with errorCount := st.errorCount + 1,
                outcomes := st.outcomes ++ [(i, RowOutcome.rejected_missing_identity)] } ∧
    (∀ rest : List String,
      processLines headers key now nowIso putOk i (rawLine :: rest) st =
        processLines headers key now nowIso putOk (i + 1) rest
          { st with errorCount := st.errorCount + 1,
                    outcomes := st.outcomes ++
                      [(i, RowOutcome.rejected_missing_identity)] }) := by
  have hstep : processLine headers key now nowIso putOk st i rawLine =
      { st with errorCount := st.errorCount + 1,
                outcomes := st.outcomes ++ [(i, RowOutcome.rejected_missing_identity)] } := by
    simp [processLine, if_neg hl, hid]
  exact ⟨hstep, fun rest => by simp only [processLines, hstep]⟩

/-- C5 witness: the row with empty id and nome fields under the header
id,nome is rejected and the loop proceeds. -/
theorem claim_C5_witness :
    (processLine ["id", "nome"] "k" 0 "t" (fun _ => true) initialBatchState 1 "," =
      { initialBatchState with
          errorCount := 1,
          outcomes := [(1, RowOutcome.rejected_missing_identity)] }) ∧
    (∀ rest : List String,
      processLines ["id", "nome"] "k" 0 "t" (fun _ => true) 1 ("," :: rest)
          initialBatchState =
        processLines ["id", "nome"] "k" 0 "t" (fun _ => true) 2 rest
          { initialBatchState with
              errorCount := 1,
              outcomes := [(1, RowOutcome.rejected_missing_identity)] }) := by
  have h := claim_C5 ["id", "nome"] "k" "t" "," 0 1 (fun _ => true)
    initialBatchState (by decide) (by decide) (by decide)
  simpa [initialBatchState] using h

/-- C6: a non-blank data row with usable id and nome fields whose preco
field does not parse as a number is not rejected: the store is called
with the enriched record, whose price is 0, and when the put succeeds
the row counts as processed, with the failure counter untouched. -/
theorem claim_C6 (headers : List String) (key nowIso rawLine : String)
    (now i : Nat) (putOk : Nat → Bool) (st : BatchState)
    (hl : ¬ jsTrim rawLine = "")
    (hid : usable (jsObjGet headers ((jsSplit ',' (jsTrim rawLine)).map jsTrim)
      "id") = true)
    (hnome : usable (jsObjGet headers ((jsSplit ',' (jsTrim rawLine)).map jsTrim)
      "nome") = true)
    (hpreco : jsParseFloatOpt (jsObjGet headers
      ((jsSplit ',' (jsTrim rawLine)).map jsTrim) "preco") = none)
    (hput : putOk i = true) :
    (enrichCsvRow headers ((jsSplit ',' (jsTrim rawLine)).map jsTrim) key now
        nowIso).preco = 0 ∧
    processLine headers key now nowIso putOk st i rawLine =
      { st with
          processedCount := st.processedCount + 1,
          putCalls := st.putCalls ++
            [(i, enrichCsvRow headers ((jsSplit ',' (jsTrim rawLine)).map jsTrim)
                  key now nowIso)],
          outcomes := st.outcomes ++
            [(i, RowOutcome.persisted (enrichCsvRow headers
                  ((jsSplit ',' (jsTrim rawLine)).map jsTrim) key now nowIso))] } := by
  constructor
  · simp [enrichCsvRow, hpreco, jsNumOr]
  · simp [processLine, if_neg hl, hid, hnome, hput]

/-- C6 witness: the row x,Widget,abc under the header id,nome,preco is
persisted with price 0. -/
theorem claim_C6_witness :
    (enrichCsvRow ["id", "nome", "preco"]
        ((jsSplit ',' (jsTrim "x,Widget,abc")).map jsTrim) "k" 0 "t").preco = 0 ∧
    processLine ["id", "nome", "preco"] "k" 0 "t" (fun _ => true)
        initialBatchState 1 "x,Widget,abc" =
      { initialBatchState with
          processedCount := 1,
          putCalls := [(1, enrichCsvRow ["id", "nome", "preco"]
            ((jsSplit ',' (jsTrim "x,Widget,abc")).map jsTrim) "k" 0 "t")],
          outcomes := [(1, RowOutcome.persisted (enrichCsvRow ["id", "nome", "preco"]
            ((jsSplit ',' (jsTrim "x,Widget,abc")).map jsTrim) "k" 0 "t"))] } := by
  have h := claim_C6 ["id", "nome", "preco"] "k" "t" "x,Widget,abc" 0 1
    (fun _ => true) initialBatchState (by decide) (by decide) (by decide)
    (by decide) rfl
  simpa [initialBatchState] using h

/-- C7 (amended): a thrown put for one row is caught and counted as a
row failure — the enriched record was handed to the store, the failure
counter goes up by one and the loop continues with the next row — and
the batch handler returns its 200 success result independent of how
many rows were rejected or failed, provided the completion notification
is not configured or does not itself fail. -/
theorem claim_C7 :
    (∀ (headers : List String) (key nowIso rawLine : String) (now i : Nat)
        (putOk : Nat → Bool) (st : BatchState),
      ¬ jsTrim rawLine = "" →
      usable (jsObjGet headers ((jsSplit ',' (jsTrim rawLine)).map jsTrim)
        "id") = true →
      usable (jsObjGet headers ((jsSplit ',' (jsTrim rawLine)).map jsTrim)
        "nome") = true →
      putOk i = false →
      (processLine headers key now nowIso putOk st i rawLine =
        { st with
            errorCount := st.errorCount + 1,
            putCalls := st.putCalls ++
              [(i, enrichCsvRow headers ((jsSplit ',' (jsTrim rawLine)).map jsTrim)
                    key now nowIso)],
            outcomes := st.outcomes ++
              [(i, RowOutcome.put_failed (enrichCsvRow headers
                    ((jsSplit ',' (jsTrim rawLine)).map jsTrim) key now nowIso))] } ∧
       ∀ rest : List String,
         processLines headers key now nowIso putOk i (rawLine :: rest) st =
           processLines headers key now nowIso putOk (i + 1) rest
             (processLine headers key now nowIso putOk st i rawLine))) ∧
    (∀ (csv key nowIso : String) (now : Nat) (putOk : Nat → Bool)
        (hasTopic publishOk failNotifyOk : Bool),
      (hasTopic = true → publishOk = true) →
      (dataProcessorHandler csv key now nowIso putOk hasTopic publishOk
          failNotifyOk).statusCode = 200) := by
  constructor
  · intro headers key nowIso rawLine now i putOk st hl hid hnome hput
    refine ⟨?_, fun rest => by simp only [processLines]⟩
    simp [processLine, if_neg hl, hid, hnome, hput]
  · intro csv key nowIso now putOk hasTopic publishOk failNotifyOk hnotify
    have hcond : (hasTopic && !publishOk) = false := by
      cases hasTopic
      · rfl
      · simp [hnotify rfl]
    simp [dataProcessorHandler, hcond]

/-- C7 witness: a concrete row whose put throws is recorded as a put
failure with the failure counter at 1, and a concrete batch with that
failing put still returns 200. -/
theorem claim_C7_witness :
    (processLine ["id", "nome"] "k" 0 "t" (fun _ => false) initialBatchState 1
        "a,b" =
      { initialBatchState with
          errorCount := 1,
          putCalls := [(1, enrichCsvRow ["id", "nome"]
            ((jsSplit ',' (jsTrim "a,b")).map jsTrim) "k" 0 "t")],
          outcomes := [(1, RowOutcome.put_failed (enrichCsvRow ["id", "nome"]
            ((jsSplit ',' (jsTrim "a,b")).map jsTrim) "k" 0 "t"))] }) ∧
    (dataProcessorHandler "id,nome\na,b" "k" 0 "t" (fun _ => false) false true
        true).statusCode = 200 := by
  have h1 := (claim_C7.1 ["id", "nome"] "k" "t" "a,b" 0 1 (fun _ => false)
    initialBatchState (by decide) (by decide) (by decide) rfl).1
  have h2 := claim_C7.2 "id,nome\na,b" "k" "t" 0 (fun _ => false) false true
    true (by simp)
  exact ⟨by simpa [initialBatchState] using h1, h2⟩

/-- C7 counterexample: a batch in which the put of the single row
throws and the completion notification publish also fails returns 500,
not the 200 success result, although the row was attempted and counted
as a failure — so the claim as stated does not hold for every batch. -/
theorem claim_C7_counterexample :
    (dataProcessorHandler "id,nome\na,b" "k7" 0 "t" (fun _ => false) true false
        true).statusCode = 500 ∧
    (dataProcessorHandler "id,nome\na,b" "k7" 0 "t" (fun _ => false) true false
        true).finalState.errorCount = 1 ∧
    (dataProcessorHandler "id,nome\na,b" "k7" 0 "t" (fun _ => false) true false
        true).finalState.outcomes.length = 1 := by
  decide

/-- C1 (amended): only the failure-path notification of the batch
handler is swallowed — with the success publish failing, the batch
result does not depend on whether the failure notification also fails,
and it is a 500; a failure of the success-path publish propagates to
the outer catch in both handlers, turning the batch 200 into a 500 and
the API 201 into a 500. -/
theorem claim_C1 :
    (∀ (csv key nowIso : String) (now : Nat) (putOk : Nat → Bool) (fn1 fn2 : Bool),
      dataProcessorHandler csv key now nowIso putOk true false fn1 =
        dataProcessorHandler csv key now nowIso putOk true false fn2) ∧
    (∀ (csv key nowIso : String) (now : Nat) (putOk : Nat → Bool) (fn : Bool),
      (dataProcessorHandler csv key now nowIso putOk true false fn).statusCode =
        500) ∧
    (∀ (parse : String → Option JsValue) (freshId nowIso : String) (now : Nat)
        (fields : List (String × JsValue)) (ip : Option String),
      truthy (propOf (JsValue.obj fields) "nome") = true →
      (createRecordHandler parse freshId now nowIso true true false
          ⟨"POST", JsValue.obj fields, ip⟩).statusCode = 500) := by
  refine ⟨fun csv key nowIso now putOk fn1 fn2 => rfl,
          fun csv key nowIso now putOk fn => by simp [dataProcessorHandler],
          fun parse freshId nowIso now fields ip hnome => ?_⟩
  simp [createRecordHandler, hnome]

/-- C1 witness: concrete runs showing both flips — a batch whose
publish fails returns 500 where the same batch with a working publish
returns 200, and likewise 500 against 201 for the API handler. -/
theorem claim_C1_witness :
    dataProcessorHandler "id,nome\na,b" "k1" 0 "t" (fun _ => true) true false
        false =
      dataProcessorHandler "id,nome\na,b" "k1" 0 "t" (fun _ => true) true false
        true ∧
    (dataProcessorHandler "id,nome\na,b" "k1" 0 "t" (fun _ => true) true false
        true).statusCode = 500 ∧
    (createRecordHandler (fun _ => none) "u-1" 0 "t" true true false
        ⟨"POST", JsValue.obj [("nome", JsValue.str "Widget")], none⟩).statusCode =
      500 :=
  ⟨claim_C1.1 "id,nome\na,b" "k1" "t" 0 (fun _ => true) false true,
   claim_C1.2.1 "id,nome\na,b" "k1" "t" 0 (fun _ => true) true,
   claim_C1.2.2 (fun _ => none) "u-1" "t" 0 [("nome", JsValue.str "Widget")]
     none rfl⟩

/-- C1 counterexample: with every put succeeding, the same batch run
returns 200 when the completion publish succeeds and 500 when it fails,
and the same API call returns 201 against 500 — so a notifier failure
does change the outcome of the triggering operation. -/
theorem claim_C1_counterexample :
    (dataProcessorHandler "id,nome\na,b" "k2" 0 "t" (fun _ => true) true true
        true).statusCode = 200 ∧
    (dataProcessorHandler "id,nome\na,b" "k2" 0 "t" (fun _ => true) true false
        true).statusCode = 500 ∧
    (createRecordHandler (fun _ => none) "u-3" 0 "t" true true true
        ⟨"POST", JsValue.obj [("nome", JsValue.str "Thing")], none⟩).statusCode =
      201 ∧
    (createRecordHandler (fun _ => none) "u-3" 0 "t" true true false
        ⟨"POST", JsValue.obj [("nome", JsValue.str "Thing")], none⟩).statusCode =
      500 :=
  ⟨rfl, rfl, rfl, rfl⟩

/-- C3 (amended): the price of a record handed to the store defaults to
0 when the raw preco field is absent or unparseable, and the stock
likewise defaults to 0, on both the batch path and the API path; but
a parseable negative value passes through unchanged, so the persisted
price and stock are not always non-negative. -/
theorem claim_C3 :
    (∀ (headers values : List String) (key nowIso : String) (now : Nat),
      jsParseFloatOpt (jsObjGet headers values "preco") = none →
      (enrichCsvRow headers values key now nowIso).preco = 0) ∧
    (∀ (headers values : List String) (key nowIso : String) (now : Nat),
      jsParseIntOpt (jsObjGet headers values "estoque") = none →
      (enrichCsvRow headers values key now nowIso).estoque = 0) ∧
    (∀ (body : JsValue) (freshId nowIso : String) (now : Nat) (ip : Option String),
      jsParseFloatV (propOf body "preco") = none →
      (apiItemOf body freshId now nowIso ip).preco = 0) ∧
    (∀ (body : JsValue) (freshId nowIso : String) (now : Nat) (ip : Option String),
      jsParseIntV (propOf body "estoque") = none →
      (apiItemOf body freshId now nowIso ip).estoque = 0) := by
  refine ⟨fun headers values key nowIso now h => ?_,
          fun headers values key nowIso now h => ?_,
          fun body freshId nowIso now ip h => ?_,
          fun body freshId nowIso now ip h => ?_⟩ <;>
    simp [enrichCsvRow, apiItemOf, h, jsNumOr, jsIntOr]

/-- C3 witness: concrete absent and unparseable numeric fields default
to 0 on both paths. -/
theorem claim_C3_witness :
    (enrichCsvRow ["id", "nome", "preco"] ["x", "Widget", "abc"] "k" 0 "t").preco =
      0 ∧
    (enrichCsvRow ["id", "nome"] ["x", "Widget"] "k" 0 "t").estoque = 0 ∧
    (apiItemOf (JsValue.obj [("nome", JsValue.str "W"),
        ("preco", JsValue.str "abc")]) "u" 0 "t" none).preco = 0 ∧
    (apiItemOf (JsValue.obj [("nome", JsValue.str "W")]) "u" 0 "t" none).estoque =
      0 :=
  ⟨claim_C3.1 ["id", "nome", "preco"] ["x", "Widget", "abc"] "k" "t" 0 (by decide),
   claim_C3.2.1 ["id", "nome"] ["x", "Widget"] "k" "t" 0 (by decide),
   claim_C3.2.2.1 (JsValue.obj [("nome", JsValue.str "W"),
     ("preco", JsValue.str "abc")]) "u" "t" 0 none rfl,
   claim_C3.2.2.2 (JsValue.obj [("nome", JsValue.str "W")]) "u" "t" 0 none rfl⟩

/-- C3 counterexample: the row x,Widget,-5,-3 is handed to the store
with price -5 and stock -3 — negative values reach the Store Gateway,
contrary to the claimed non-negativity. -/
theorem claim_C3_counterexample :
    ((dataProcessorHandler "id,nome,preco,estoque\nx,Widget,-5,-3" "f.csv" 0 "t"
        (fun _ => true) false true true).finalState.putCalls.map
          (fun p => (p.2.preco, p.2.estoque))) = [(-5, -3)] ∧
    (-5 : ℚ) < 0 ∧ (-3 : Int) < 0 := by
  refine ⟨by with_unfolding_all decide, by norm_num, by norm_num⟩

/-- C8: a POST whose body reaches the handler as a key-value structure
(either directly or as a string the platform parser turns into one)
without a usable nome field is answered with 400 and the Validation
Error discriminator, and the store is never called. -/
theorem claim_C8 (parse : String → Option JsValue) (freshId nowIso : String)
    (now : Nat) (putOk hasTopic publishOk : Bool)
    (fields : List (String × JsValue)) (ip : Option String) (bodyv : JsValue)
    (hbody : bodyv = JsValue.obj fields ∨
      ∃ s, bodyv = JsValue.str s ∧ parse s = some (JsValue.obj fields))
    (hnome : truthy (propOf (JsValue.obj fields) "nome") = false) :
    createRecordHandler parse freshId now nowIso putOk hasTopic publishOk
        ⟨"POST", bodyv, ip⟩ =
      { statusCode := 400, errorKind := some "Validation Error",
        createdId := none, putCalls := [] } := by
  rcases hbody with h | ⟨s, hs, hp⟩
  · subst h
    simp [createRecordHandler, hnome]
  · subst hs
    simp [createRecordHandler, hp, hnome]

/-- C8 witness: the string body with no nome field, parsed to an empty
object, is answered 400 Validation Error with no store call. -/
theorem claim_C8_witness :
    createRecordHandler (fun _ => some (JsValue.obj [])) "u" 0 "t" true false
        true ⟨"POST", JsValue.str "{}", none⟩ =
      { statusCode := 400, errorKind := some "Validation Error",
        createdId := none, putCalls := [] } :=
  claim_C8 (fun _ => some (JsValue.obj [])) "u" "t" 0 true false true [] none
    (JsValue.str "{}") (Or.inr ⟨"{}", rfl, rfl⟩) rfl

/-- C9 (amended): a POST whose body has a usable nome but no usable id,
with the put succeeding and the notification succeeding or
unconfigured, is answered 201 carrying the freshly generated
identifier, which is non-empty whenever the generator returns a
non-empty string, and two calls whose generated identifiers differ
carry different ids. -/
theorem claim_C9 (parse : String → Option JsValue) (nowIso : String) (now : Nat)
    (hasTopic publishOk : Bool) (fields : List (String × JsValue))
    (ip : Option String) (freshId freshId2 : String)
    (hnome : truthy (propOf (JsValue.obj fields) "nome") = true)
    (hid : truthy (propOf (JsValue.obj fields) "id") = false)
    (hnotify : hasTopic = true → publishOk = true)
    (hfresh : ¬ freshId = "") :
    (createRecordHandler parse freshId now nowIso true hasTopic publishOk
        ⟨"POST", JsValue.obj fields, ip⟩).statusCode = 201 ∧
    (createRecordHandler parse freshId now nowIso true hasTopic publishOk
        ⟨"POST", JsValue.obj fields, ip⟩).createdId =
      some (JsValue.str freshId) ∧
    ¬ JsValue.str freshId = JsValue.str "" ∧
    (¬ freshId2 = freshId →
      ¬ (createRecordHandler parse freshId2 now nowIso true hasTopic publishOk
            ⟨"POST", JsValue.obj fields, ip⟩).createdId =
          (createRecordHandler parse freshId now nowIso true hasTopic publishOk
            ⟨"POST", JsValue.obj fields, ip⟩).createdId) := by
  have hcond : (hasTopic && !publishOk) = false := by
    cases hasTopic
    · rfl
    · simp [hnotify rfl]
  refine ⟨?_, ?_, by simp [hfresh], fun hne => ?_⟩
  · simp [createRecordHandler, hnome, hcond]
  · simp [createRecordHandler, hnome, hid, hcond, apiItemOf]
  · simp [createRecordHandler, hnome, hid, hcond, apiItemOf, hne]

/-- C9 witness: a concrete call with nome Widget and no id returns 201
with the concrete generated id, and a second generator value gives a
different id. -/
theorem claim_C9_witness :
    (createRecordHandler (fun _ => none) "u-9" 0 "t" true false true
        ⟨"POST", JsValue.obj [("nome", JsValue.str "Widget")], none⟩).statusCode =
      201 ∧
    (createRecordHandler (fun _ => none) "u-9" 0 "t" true false true
        ⟨"POST", JsValue.obj [("nome", JsValue.str "Widget")], none⟩).createdId =
      some (JsValue.str "u-9") ∧
    ¬ JsValue.str "u-9" = JsValue.str "" ∧
    (¬ "v-9" = "u-9" →
      ¬ (createRecordHandler (fun _ => none) "v-9" 0 "t" true false true
            ⟨"POST", JsValue.obj [("nome", JsValue.str "Widget")], none⟩).createdId =
          (createRecordHandler (fun _ => none) "u-9" 0 "t" true false true
            ⟨"POST", JsValue.obj [("nome", JsValue.str "Widget")],
              none⟩).createdId) :=
  claim_C9 (fun _ => none) "t" 0 false true [("nome", JsValue.str "Widget")]
    none "u-9" "v-9" rfl rfl (by simp) (by decide)

/-- C9 counterexample: the same call — usable nome, no id, put
succeeding — returns 500 instead of 201 when a topic is configured and
the notification publish fails, so the claim as stated does not hold of
every successful persistence. -/
theorem claim_C9_counterexample :
    (createRecordHandler (fun _ => none) "u-2" 0 "t" true true false
        ⟨"POST", JsValue.obj [("nome", JsValue.str "Gadget")], none⟩).statusCode =
      500 ∧
    (createRecordHandler (fun _ => none) "u-2" 0 "t" true true true
        ⟨"POST", JsValue.obj [("nome", JsValue.str "Gadget")], none⟩).statusCode =
      201 := by
  exact ⟨rfl, rfl⟩

/-- C10: a POST whose body is entirely absent (null or undefined) is
not caught by the JSON-parse guard: reading nome from the missing body
throws, the outermost catch answers, and the response is the 500
Internal Server Error, not a 400, with no store call. -/
theorem claim_C10 (parse : String → Option JsValue) (freshId nowIso : String)
    (now : Nat) (putOk hasTopic publishOk : Bool) (ip : Option String)
    (bodyv : JsValue)
    (hbody : bodyv = JsValue.null ∨ bodyv = JsValue.undefined) :
    createRecordHandler parse freshId now nowIso putOk hasTopic publishOk
        ⟨"POST", bodyv, ip⟩ =
      { statusCode := 500, errorKind := some "Internal Server Error",
        createdId := none, putCalls := [] } ∧
    ¬ (createRecordHandler parse freshId now nowIso putOk hasTopic publishOk
        ⟨"POST", bodyv, ip⟩).statusCode = 400 := by
  rcases hbody with h | h <;> subst h <;>
    exact ⟨by simp [createRecordHandler], by simp [createRecordHandler]⟩

/-- C10 witness: a concrete null body yields the 500 response. -/
theorem claim_C10_witness :
    createRecordHandler (fun _ => none) "u-10" 0 "t" true false true
        ⟨"POST", JsValue.null, none⟩ =
      { statusCode := 500, errorKind := some "Internal Server Error",
        createdId := none, putCalls := [] } ∧
    ¬ (createRecordHandler (fun _ => none) "u-10" 0 "t" true false true
        ⟨"POST", JsValue.null, none⟩).statusCode = 400 :=
  claim_C10 (fun _ => none) "u-10" "t" 0 true false true none JsValue.null
    (Or.inl rfl)

end Pipeline
